import Mathlib

/-!
Shallow embedding of src/jack_large_number_ports.cpp, a JACK client that
registers 1024 input and 1024 output ports, copies each input buffer to the
corresponding output buffer on every process cycle, and exits after a fixed
sleep. The JACK server is modelled as an environment of responses (whether
the connection opens, which port registrations succeed, whether activation
succeeds); main is a function from that environment to a run trace
(observable events) together with an exit code. The process callback is a
pure state transformer on the buffer state the server hands the client.
-/

set_option maxRecDepth 8192

/-- From the source: constexpr const uint32_t num_ports = 1024. -/
def num_ports : Nat := 1024

/-- Port direction flag, JackPortIsInput or JackPortIsOutput. -/
inductive Direction
  | input
  | output
deriving DecidableEq

/-- The name built by the registration loops: the stringstream writes
the direction word, a dash, then the decimal index. -/
def portName : Direction → Nat → String
  | .input, i => "input-" ++ toString i
  | .output, i => "output-" ++ toString i

/-- Observable actions the client performs, in program order. -/
inductive Event
  | stderrMsg (msg : String)
  | stdoutMsg (msg : String)
  | setProcessCallback
  | setShutdownCallback
  | registerPort (dir : Direction) (name : String)
  | activateCall
  | sleepSeconds (secs : Nat)
  | deactivateCall
  | closeCall
deriving DecidableEq

/-- The status bits of jack_status_t that main inspects. -/
structure JackStatus where
  serverFailed : Bool
  serverStarted : Bool
  nameNotUnique : Bool
deriving DecidableEq

/-- The environment: the responses the JACK server gives to each call the
client makes. regOk d i says whether jack_port_register succeeds for the
i-th port of direction d. -/
structure Env where
  openOk : Bool
  status : JackStatus
  assignedName : String
  sampleRate : Nat
  regOk : Direction → Nat → Bool
  activateOk : Bool

/-- Result of a registration loop: the port names pushed into the global
vector so far, and the events emitted. A failure keeps the partial vector
(the program exits without cleanup). -/
inductive RegResult
  | ok (ports : List String) (events : List Event)
  | fail (ports : List String) (events : List Event)
deriving DecidableEq

/-- The events of either outcome of a registration loop. -/
def RegResult.events : RegResult → List Event
  | .ok _ es => es
  | .fail _ es => es

/-- The direction word used in the failure diagnostics. -/
def dirWord : Direction → String
  | .input => "input"
  | .output => "output"

/-- One registration loop of main: iteration i registers the port named
portName d i; the first failure prints to stderr and aborts (exit 1),
keeping the ports registered so far. regLoop env d n performs iterations
0, 1, ..., n-1 in that order. -/
def regLoop (env : Env) (d : Direction) : Nat → RegResult
  | 0 => .ok [] []
  | n + 1 =>
    match regLoop env d n with
    | .fail ps es => .fail ps es
    | .ok ps es =>
      if env.regOk d n then
        .ok (ps ++ [portName d n]) (es ++ [.registerPort d (portName d n)])
      else
        .fail ps (es ++ [.stderrMsg ("Failed to register " ++ dirWord d ++ " port " ++ toString n)])

/-- The events main emits between a successful open and the first
registration loop: the optional status diagnostics, the two callback
registrations, and the sample-rate line. -/
def setupEvents (env : Env) : List Event :=
  (if env.status.serverStarted then [Event.stderrMsg "JACK server started"] else []) ++
  (if env.status.nameNotUnique then
    [Event.stderrMsg ("unique name assigned: " ++ env.assignedName)] else []) ++
  [Event.setProcessCallback, Event.setShutdownCallback,
   Event.stdoutMsg ("engine sample rate: " ++ toString env.sampleRate)]

/-- The outcome of a run of main: the trace of events, the exit status, and
the final contents of the two global port vectors. -/
structure Run where
  events : List Event
  exitCode : Nat
  input_ports : List String
  output_ports : List String
deriving DecidableEq

namespace client

/-- The main function of the client, as a function of the server
environment. Mirrors the source control flow: open the client (exit 1 on
failure, before any registration), print status diagnostics, install the
process and shutdown callbacks, print the sample rate, run the input
registration loop then the output registration loop (each failure exits 1
immediately), call jack_activate (nonzero return prints to stderr and exits
1), then sleep 60 seconds, print, deactivate, close, exit 0. -/
def main (env : Env) : Run :=
  if env.openOk = false then
    { events := [Event.stderrMsg "jack_client_open() failed"] ++
        (if env.status.serverFailed then
          [Event.stderrMsg "Unable to connect to JACK server"] else []),
      exitCode := 1, input_ports := [], output_ports := [] }
  else
    match regLoop env .input num_ports with
    | .fail ps es =>
      { events := setupEvents env ++ es, exitCode := 1,
        input_ports := ps, output_ports := [] }
    | .ok inPorts es1 =>
      match regLoop env .output num_ports with
      | .fail ps es2 =>
        { events := setupEvents env ++ es1 ++ es2, exitCode := 1,
          input_ports := inPorts, output_ports := ps }
      | .ok outPorts es2 =>
        if env.activateOk = false then
          { events := setupEvents env ++ es1 ++ es2 ++
              [Event.activateCall, Event.stderrMsg "cannot activate client"],
            exitCode := 1, input_ports := inPorts, output_ports := outPorts }
        else
          { events := setupEvents env ++ es1 ++ es2 ++
              [Event.activateCall, Event.sleepSeconds 60,
               Event.stdoutMsg "Starting close", Event.deactivateCall, Event.closeCall],
            exitCode := 0, input_ports := inPorts, output_ports := outPorts }

end client

/-- State visible to the process callback: the two global port vectors,
the global client handle, and for each port index the sample buffer the
server hands out via jack_port_get_buffer for the input and the output
port of that index. The copy is exact sample-for-sample, so the numeric
sample type is irrelevant; samples are modelled as Int. -/
structure ProcState where
  input_ports : List String
  output_ports : List String
  jack_client : Nat
  inBuf : Nat → Nat → Int
  outBuf : Nat → Nat → Int

/-- The process callback: for each port index below num_ports, std::copy
writes samples 0..nframes-1 of the input buffer over samples 0..nframes-1
of the output buffer of the same index; everything else is untouched; the
callback returns 0. -/
def process (nframes : Nat) (st : ProcState) : ProcState × Int :=
  ({ st with outBuf := fun p j =>
      if p < num_ports ∧ j < nframes then st.inBuf p j else st.outBuf p j }, 0)

/-- Exit status plus the cleanup events performed before exiting. -/
structure ExitResult where
  cleanup : List Event
  exitCode : Nat
deriving DecidableEq

/-- The shutdown callback installed via jack_on_shutdown: it calls exit(1)
and nothing else. -/
def jack_shutdown (_arg : Unit) : ExitResult :=
  { cleanup := [], exitCode := 1 }

/-- The register-port events of the full loop over direction d, in order. -/
def regEventsFor (d : Direction) : List Event :=
  (List.range num_ports).map (fun i => Event.registerPort d (portName d i))

/-- Extracts the direction and name of a registration event. -/
def regName : Event → Option (Direction × String)
  | .registerPort d n => some (d, n)
  | _ => none

/-- Events a registration loop can emit. -/
def isSetupEvent : Event → Bool
  | .registerPort _ _ => true
  | .stderrMsg _ => true
  | _ => false

/-! Helper lemmas about the registration loops and the run of main. -/

theorem regLoop_ok (env : Env) (d : Direction) :
    ∀ n : Nat, (∀ i, i < n → env.regOk d i = true) →
      regLoop env d n = .ok ((List.range n).map (portName d))
        ((List.range n).map (fun i => Event.registerPort d (portName d i))) := by
  intro n
  induction n with
  | zero => intro _; rfl
  | succ n ih =>
    intro h
    have hn : env.regOk d n = true := h n (Nat.lt_succ_self n)
    have ihe := ih (fun i hi => h i (Nat.lt_succ_of_lt hi))
    simp [regLoop, ihe, hn, List.range_succ]

theorem regLoop_fail (env : Env) (d : Direction) :
    ∀ n : Nat, ¬ (∀ i, i < n → env.regOk d i = true) →
      ∃ ps es, regLoop env d n = .fail ps es ∧
        ∃ msg, Event.stderrMsg msg ∈ es := by
  intro n
  induction n with
  | zero => intro h; exact absurd (fun i hi => absurd hi (Nat.not_lt_zero i)) h
  | succ n ih =>
    intro h
    by_cases hprev : ∀ i, i < n → env.regOk d i = true
    · have hn : env.regOk d n = false := by
        cases hv : env.regOk d n with
        | true =>
          exact absurd (fun i hi => by
            rcases Nat.lt_succ_iff_lt_or_eq.mp hi with hlt | heq
            · exact hprev i hlt
            · rw [heq]; exact hv) h
        | false => rfl
      refine ⟨(List.range n).map (portName d),
        ((List.range n).map (fun i => Event.registerPort d (portName d i))) ++
          [Event.stderrMsg ("Failed to register " ++ dirWord d ++ " port " ++ toString n)],
        ?_, ?_⟩
      · simp [regLoop, regLoop_ok env d n hprev, hn]
      · exact ⟨"Failed to register " ++ dirWord d ++ " port " ++ toString n, by simp⟩
    · rcases ih hprev with ⟨ps, es, heq, msg, hmsg⟩
      exact ⟨ps, es, by simp [regLoop, heq], msg, hmsg⟩

theorem regLoop_events_shape (env : Env) (d : Direction) :
    ∀ n : Nat, ∀ e ∈ (regLoop env d n).events, isSetupEvent e = true := by
  intro n
  induction n with
  | zero => intro e he; simp [regLoop, RegResult.events] at he
  | succ n ih =>
    intro e he
    cases hr : regLoop env d n with
    | ok ps es =>
      rw [hr] at ih
      simp only [regLoop, hr] at he
      cases hv : env.regOk d n with
      | true =>
        rw [hv] at he
        simp only [if_pos rfl, RegResult.events] at he
        have he2 : e ∈ es ∨ e = Event.registerPort d (portName d n) := by
          simpa using he
        rcases he2 with he2 | he2
        · exact ih e he2
        · rw [he2]; rfl
      | false =>
        rw [hv] at he
        simp only [RegResult.events] at he
        have he2 : e ∈ es ∨
            e = Event.stderrMsg
              ("Failed to register " ++ dirWord d ++ " port " ++ toString n) := by
          simpa using he
        rcases he2 with he2 | he2
        · exact ih e he2
        · rw [he2]; rfl
    | fail ps es =>
      rw [hr] at ih
      simp only [regLoop, hr, RegResult.events] at he
      exact ih e he

theorem isSetupEvent_ne (e : Event) (h : isSetupEvent e = true) :
    e ≠ Event.activateCall ∧ e ≠ Event.deactivateCall ∧ e ≠ Event.closeCall := by
  cases e <;> simp_all [isSetupEvent]

theorem setupEvents_no_run (env : Env) :
    Event.activateCall ∉ setupEvents env ∧
    Event.deactivateCall ∉ setupEvents env ∧
    Event.closeCall ∉ setupEvents env := by
  cases hs : env.status.serverStarted <;> cases hn : env.status.nameNotUnique <;>
    simp [setupEvents, hs, hn]

theorem setupEvents_regName (env : Env) :
    (setupEvents env).filterMap regName = [] := by
  cases hs : env.status.serverStarted <;> cases hn : env.status.nameNotUnique <;>
    simp [setupEvents, hs, hn, regName]

theorem filterMap_regName_map (d : Direction) (l : List Nat) :
    l.filterMap (regName ∘ fun i => Event.registerPort d (portName d i)) =
      l.map (fun i => (d, portName d i)) := by
  induction l with
  | nil => rfl
  | cons a l ih => simp [regName, Function.comp, ih]

theorem regEventsFor_shape (d : Direction) :
    ∀ e ∈ regEventsFor d, isSetupEvent e = true := by
  intro e he
  simp only [regEventsFor, List.mem_map] at he
  rcases he with ⟨i, _, rfl⟩
  rfl

theorem main_ok (env : Env) (ho : env.openOk = true)
    (hin : ∀ i, i < num_ports → env.regOk .input i = true)
    (hout : ∀ i, i < num_ports → env.regOk .output i = true) :
    client.main env =
      { events := setupEvents env ++ regEventsFor .input ++ regEventsFor .output ++
          (if env.activateOk then
            [Event.activateCall, Event.sleepSeconds 60, Event.stdoutMsg "Starting close",
             Event.deactivateCall, Event.closeCall]
           else [Event.activateCall, Event.stderrMsg "cannot activate client"]),
        exitCode := if env.activateOk then 0 else 1,
        input_ports := (List.range num_ports).map (portName .input),
        output_ports := (List.range num_ports).map (portName .output) } := by
  have h1 := regLoop_ok env .input num_ports hin
  have h2 := regLoop_ok env .output num_ports hout
  cases ha : env.activateOk <;>
    simp [client.main, ho, h1, h2, ha, regEventsFor, List.append_assoc]

/-! Concrete inputs used by the witness theorems. -/

/-- An environment where every call succeeds. -/
def allOkEnv : Env :=
  { openOk := true, status := ⟨false, false, false⟩,
    assignedName := "jack_large_number_ports", sampleRate := 48000,
    regOk := fun _ _ => true, activateOk := true }

/-- An environment where every port registration fails. -/
def regFailEnv : Env :=
  { openOk := true, status := ⟨false, false, false⟩,
    assignedName := "jack_large_number_ports", sampleRate := 48000,
    regOk := fun _ _ => false, activateOk := true }

/-- An environment where opening the client connection fails. -/
def openFailEnv : Env :=
  { openOk := false, status := ⟨true, false, false⟩,
    assignedName := "jack_large_number_ports", sampleRate := 48000,
    regOk := fun _ _ => true, activateOk := true }

/-- An environment where everything succeeds except jack_activate. -/
def activateFailEnv : Env :=
  { openOk := true, status := ⟨false, false, false⟩,
    assignedName := "jack_large_number_ports", sampleRate := 48000,
    regOk := fun _ _ => true, activateOk := false }

/-- A concrete callback state with distinguishable buffer contents. -/
def exState : ProcState :=
  { input_ports := (List.range num_ports).map (portName .input),
    output_ports := (List.range num_ports).map (portName .output),
    jack_client := 7,
    inBuf := fun p j => (p : Int) * 1000 + j,
    outBuf := fun _ _ => 0 }

/-! The claims. -/

/-- Claim C1: for every invocation of the process callback with frame count
nframes and every port index i below num_ports (1024), after the callback
the first nframes samples of output buffer i equal the first nframes
samples of input buffer i, preserving the pairing input i to output i. -/
theorem process_copies (nframes : Nat) (st : ProcState) (i j : Nat)
    (hi : i < num_ports) (hj : j < nframes) :
    ((process nframes st).1).outBuf i j = st.inBuf i j := by
  simp [process, hi, hj]

/-- Witness for C1 at nframes = 4, port 2, sample 3. -/
theorem process_copies_witness :
    2 < num_ports ∧ 3 < 4 ∧
      ((process 4 exState).1).outBuf 2 3 = exState.inBuf 2 3 :=
  ⟨by decide, by decide, process_copies 4 exState 2 3 (by decide) (by decide)⟩

/-- Claim C9: the process callback returns 0 on every invocation, and with
nframes = 0 every output buffer is left unchanged. -/
theorem process_returns_zero (nframes : Nat) (st : ProcState) :
    (process nframes st).2 = 0 ∧
      (nframes = 0 → (process nframes st).1.outBuf = st.outBuf) := by
  refine ⟨rfl, ?_⟩
  intro h
  subst h
  funext p j
  simp [process]

/-- Witness for C9 at nframes = 0. -/
theorem process_returns_zero_witness :
    (process 0 exState).2 = 0 ∧ (process 0 exState).1.outBuf = exState.outBuf :=
  ⟨(process_returns_zero 0 exState).1, (process_returns_zero 0 exState).2 rfl⟩

/-- Claim C10: the process callback writes only the first nframes samples of
the first num_ports output buffers; the input buffers, the port vectors,
the client handle, and every output sample at a port index at or beyond
num_ports or a sample index at or beyond nframes are unchanged. -/
theorem process_frame_effect (nframes : Nat) (st : ProcState) (p j : Nat)
    (h : num_ports ≤ p ∨ nframes ≤ j) :
    (process nframes st).1.inBuf = st.inBuf ∧
    (process nframes st).1.input_ports = st.input_ports ∧
    (process nframes st).1.output_ports = st.output_ports ∧
    (process nframes st).1.jack_client = st.jack_client ∧
    (process nframes st).1.outBuf p j = st.outBuf p j := by
  refine ⟨rfl, rfl, rfl, rfl, ?_⟩
  have hcond : ¬ (p < num_ports ∧ j < nframes) := by
    rcases h with h | h
    · exact fun hc => absurd hc.1 (Nat.not_lt.mpr h)
    · exact fun hc => absurd hc.2 (Nat.not_lt.mpr h)
  simp [process, hcond]

/-- Witness for C10 at a port index beyond the port count. -/
theorem process_frame_effect_witness :
    (num_ports ≤ 2000 ∨ 4 ≤ 1) ∧
      (process 4 exState).1.inBuf = exState.inBuf ∧
      (process 4 exState).1.input_ports = exState.input_ports ∧
      (process 4 exState).1.output_ports = exState.output_ports ∧
      (process 4 exState).1.jack_client = exState.jack_client ∧
      (process 4 exState).1.outBuf 2000 1 = exState.outBuf 2000 1 :=
  ⟨Or.inl (by decide), process_frame_effect 4 exState 2000 1 (Or.inl (by decide))⟩

/-- Claim C6: whenever the server invokes the shutdown callback, the process
exits with status 1 and performs no cleanup: no deactivate and no close
call. The callback ignores its argument and depends on no program state. -/
theorem jack_shutdown_spec :
    (jack_shutdown ()).exitCode = 1 ∧ (jack_shutdown ()).cleanup = [] ∧
      Event.deactivateCall ∉ (jack_shutdown ()).cleanup ∧
      Event.closeCall ∉ (jack_shutdown ()).cleanup := by
  refine ⟨rfl, rfl, ?_, ?_⟩ <;> simp [jack_shutdown]

/-- Claim C2: in every run that reaches the activation call, exactly
num_ports (1024) input ports and num_ports output ports were registered
before that call, named input-0 .. input-1023 and output-0 .. output-1023
in registration order, and no registration happens after the call; the two
global vectors hold exactly those names. -/
theorem activation_ports (env : Env)
    (h : Event.activateCall ∈ (client.main env).events) :
    (client.main env).input_ports = (List.range num_ports).map (portName .input) ∧
    (client.main env).output_ports = (List.range num_ports).map (portName .output) ∧
    (client.main env).input_ports.length = num_ports ∧
    (client.main env).output_ports.length = num_ports ∧
    ∃ es1 es2, (client.main env).events = es1 ++ Event.activateCall :: es2 ∧
      es1.filterMap regName =
        (List.range num_ports).map (fun i => (Direction.input, portName .input i)) ++
        (List.range num_ports).map (fun i => (Direction.output, portName .output i)) ∧
      ∀ e ∈ es2, regName e = none := by
  have ho : env.openOk = true := by
    cases hv : env.openOk with
    | true => rfl
    | false =>
      exfalso
      cases hsf : env.status.serverFailed <;>
        simp [client.main, hv, hsf] at h
  have hin : ∀ i, i < num_ports → env.regOk .input i = true := by
    by_contra hc
    rcases regLoop_fail env .input num_ports hc with ⟨ps, es, heq, _, _⟩
    have hshape := regLoop_events_shape env .input num_ports
    rw [heq] at hshape
    simp only [RegResult.events] at hshape
    have hnes : Event.activateCall ∉ es := fun hmem => by
      simpa [isSetupEvent] using hshape _ hmem
    have hns := (setupEvents_no_run env).1
    simp [client.main, ho, heq, hns, hnes] at h
  have h1 := regLoop_ok env .input num_ports hin
  have hout : ∀ i, i < num_ports → env.regOk .output i = true := by
    by_contra hc
    rcases regLoop_fail env .output num_ports hc with ⟨ps, es, heq, _, _⟩
    have hshape := regLoop_events_shape env .output num_ports
    rw [heq] at hshape
    simp only [RegResult.events] at hshape
    have hnes : Event.activateCall ∉ es := fun hmem => by
      simpa [isSetupEvent] using hshape _ hmem
    have hns := (setupEvents_no_run env).1
    simp [client.main, ho, h1, heq, hns, hnes] at h
  rw [main_ok env ho hin hout]
  refine ⟨rfl, rfl, by simp, by simp, ?_⟩
  refine ⟨setupEvents env ++ regEventsFor .input ++ regEventsFor .output,
    (if env.activateOk then
      [Event.sleepSeconds 60, Event.stdoutMsg "Starting close",
       Event.deactivateCall, Event.closeCall]
     else [Event.stderrMsg "cannot activate client"]), ?_, ?_, ?_⟩
  · cases ha : env.activateOk <;> simp [ha, List.append_assoc]
  · simp [List.filterMap_append, setupEvents_regName, regEventsFor, filterMap_regName_map]
  · cases ha : env.activateOk <;> simp [ha, regName]

/-- In the all-success environment, the activation call is reached. -/
theorem allOkEnv_activate_mem :
    Event.activateCall ∈ (client.main allOkEnv).events := by
  rw [main_ok allOkEnv rfl (fun _ _ => rfl) (fun _ _ => rfl)]
  simp [allOkEnv]

/-- Witness for C2 at the all-success environment. -/
theorem activation_ports_witness :
    Event.activateCall ∈ (client.main allOkEnv).events ∧
      ((client.main allOkEnv).input_ports =
          (List.range num_ports).map (portName .input) ∧
        (client.main allOkEnv).output_ports =
          (List.range num_ports).map (portName .output) ∧
        (client.main allOkEnv).input_ports.length = num_ports ∧
        (client.main allOkEnv).output_ports.length = num_ports ∧
        ∃ es1 es2, (client.main allOkEnv).events = es1 ++ Event.activateCall :: es2 ∧
          es1.filterMap regName =
            (List.range num_ports).map (fun i => (Direction.input, portName .input i)) ++
            (List.range num_ports).map (fun i => (Direction.output, portName .output i)) ∧
          ∀ e ∈ es2, regName e = none) :=
  ⟨allOkEnv_activate_mem, activation_ports allOkEnv allOkEnv_activate_mem⟩

/-- Claim C3: if any port registration fails, the run prints a diagnostic
to stderr and exits with status 1; the activation call is never reached (so
the process callback is never invoked) and no cleanup call (deactivate or
close) is performed. -/
theorem reg_fail_exits (env : Env) (ho : env.openOk = true)
    (hf : ¬ ((∀ i, i < num_ports → env.regOk .input i = true) ∧
             (∀ i, i < num_ports → env.regOk .output i = true))) :
    (client.main env).exitCode = 1 ∧
    (∃ msg, Event.stderrMsg msg ∈ (client.main env).events) ∧
    Event.activateCall ∉ (client.main env).events ∧
    Event.deactivateCall ∉ (client.main env).events ∧
    Event.closeCall ∉ (client.main env).events := by
  obtain ⟨hs1, hs2, hs3⟩ := setupEvents_no_run env
  by_cases hin : ∀ i, i < num_ports → env.regOk .input i = true
  · have hnout : ¬ ∀ i, i < num_ports → env.regOk .output i = true :=
      fun hh => hf ⟨hin, hh⟩
    rcases regLoop_fail env .output num_ports hnout with ⟨ps, es, heq, msg, hmsg⟩
    have h1 := regLoop_ok env .input num_ports hin
    have hshape := regLoop_events_shape env .output num_ports
    rw [heq] at hshape
    simp only [RegResult.events] at hshape
    have hes : Event.activateCall ∉ es ∧ Event.deactivateCall ∉ es ∧
        Event.closeCall ∉ es := by
      refine ⟨fun hmem => ?_, fun hmem => ?_, fun hmem => ?_⟩ <;>
        simpa [isSetupEvent] using hshape _ hmem
    refine ⟨by simp [client.main, ho, h1, heq],
      ⟨msg, by simp [client.main, ho, h1, heq, hmsg]⟩, ?_, ?_, ?_⟩ <;>
      simp [client.main, ho, h1, heq, hs1, hs2, hs3, hes.1, hes.2.1, hes.2.2]
  · rcases regLoop_fail env .input num_ports hin with ⟨ps, es, heq, msg, hmsg⟩
    have hshape := regLoop_events_shape env .input num_ports
    rw [heq] at hshape
    simp only [RegResult.events] at hshape
    have hes : Event.activateCall ∉ es ∧ Event.deactivateCall ∉ es ∧
        Event.closeCall ∉ es := by
      refine ⟨fun hmem => ?_, fun hmem => ?_, fun hmem => ?_⟩ <;>
        simpa [isSetupEvent] using hshape _ hmem
    refine ⟨by simp [client.main, ho, heq],
      ⟨msg, by simp [client.main, ho, heq, hmsg]⟩, ?_, ?_, ?_⟩ <;>
      simp [client.main, ho, heq, hs1, hs2, hs3, hes.1, hes.2.1, hes.2.2]

/-- Witness for C3 at an environment where every registration fails. -/
theorem reg_fail_exits_witness :
    regFailEnv.openOk = true ∧
      (client.main regFailEnv).exitCode = 1 ∧
      (∃ msg, Event.stderrMsg msg ∈ (client.main regFailEnv).events) ∧
      Event.activateCall ∉ (client.main regFailEnv).events ∧
      Event.deactivateCall ∉ (client.main regFailEnv).events ∧
      Event.closeCall ∉ (client.main regFailEnv).events :=
  ⟨rfl, reg_fail_exits regFailEnv rfl
    (fun hc => by simpa [regFailEnv] using hc.1 0 (by decide))⟩

/-- Claim C4: if opening the client connection fails, the run prints a
diagnostic to stderr and exits with status 1 with no port registration
attempted (no registration event of any direction or name occurs). -/
theorem open_fail_exits (env : Env) (ho : env.openOk = false) :
    (client.main env).exitCode = 1 ∧
    Event.stderrMsg "jack_client_open() failed" ∈ (client.main env).events ∧
    ∀ d n, Event.registerPort d n ∉ (client.main env).events := by
  cases hsf : env.status.serverFailed <;> simp [client.main, ho, hsf]

/-- Witness for C4 at an environment whose open call fails. -/
theorem open_fail_exits_witness :
    openFailEnv.openOk = false ∧
      (client.main openFailEnv).exitCode = 1 ∧
      Event.stderrMsg "jack_client_open() failed" ∈ (client.main openFailEnv).events ∧
      ∀ d n, Event.registerPort d n ∉ (client.main openFailEnv).events :=
  ⟨rfl, open_fail_exits openFailEnv rfl⟩

/-- Claim C5: when open, every registration, and activation succeed and
nothing interrupts the run, the trace ends with the activation, the
60-second sleep, the closing message, the deactivate call and the close
call in that order, and the exit status is 0. -/
theorem normal_completion (env : Env) (ho : env.openOk = true)
    (hin : ∀ i, i < num_ports → env.regOk .input i = true)
    (hout : ∀ i, i < num_ports → env.regOk .output i = true)
    (ha : env.activateOk = true) :
    (∃ es, (client.main env).events = es ++
        [Event.activateCall, Event.sleepSeconds 60, Event.stdoutMsg "Starting close",
         Event.deactivateCall, Event.closeCall]) ∧
    (client.main env).exitCode = 0 := by
  rw [main_ok env ho hin hout]
  exact ⟨⟨setupEvents env ++ regEventsFor .input ++ regEventsFor .output,
    by simp [ha]⟩, by simp [ha]⟩

/-- Witness for C5 at the all-success environment. -/
theorem normal_completion_witness :
    (∃ es, (client.main allOkEnv).events = es ++
        [Event.activateCall, Event.sleepSeconds 60, Event.stdoutMsg "Starting close",
         Event.deactivateCall, Event.closeCall]) ∧
    (client.main allOkEnv).exitCode = 0 :=
  normal_completion allOkEnv rfl (fun _ _ => rfl) (fun _ _ => rfl) rfl

/-- Claim C7: if jack_activate returns nonzero, the run prints the
diagnostic to stderr and exits with status 1. -/
theorem activate_fail_exits (env : Env) (ho : env.openOk = true)
    (hin : ∀ i, i < num_ports → env.regOk .input i = true)
    (hout : ∀ i, i < num_ports → env.regOk .output i = true)
    (ha : env.activateOk = false) :
    (client.main env).exitCode = 1 ∧
    Event.stderrMsg "cannot activate client" ∈ (client.main env).events := by
  rw [main_ok env ho hin hout]
  exact ⟨by simp [ha], by simp [ha]⟩

/-- Witness for C7 at an environment where only activation fails. -/
theorem activate_fail_exits_witness :
    activateFailEnv.activateOk = false ∧
      (client.main activateFailEnv).exitCode = 1 ∧
      Event.stderrMsg "cannot activate client" ∈ (client.main activateFailEnv).events :=
  ⟨rfl, activate_fail_exits activateFailEnv rfl (fun _ _ => rfl) (fun _ _ => rfl) rfl⟩

/-- Claim C8: once setup (both registration loops) completes, both global
port vectors have length exactly num_ports for the rest of the run, and
the process callback never modifies either vector. -/
theorem ports_invariant (env : Env) (nframes : Nat) (st : ProcState) :
    (env.openOk = true →
      (∀ i, i < num_ports → env.regOk .input i = true) →
      (∀ i, i < num_ports → env.regOk .output i = true) →
      (client.main env).input_ports.length = num_ports ∧
        (client.main env).output_ports.length = num_ports) ∧
    (process nframes st).1.input_ports = st.input_ports ∧
    (process nframes st).1.output_ports = st.output_ports := by
  refine ⟨fun ho hin hout => ?_, rfl, rfl⟩
  rw [main_ok env ho hin hout]
  simp

/-- Witness for C8 at the all-success environment and a concrete state. -/
theorem ports_invariant_witness :
    ((client.main allOkEnv).input_ports.length = num_ports ∧
      (client.main allOkEnv).output_ports.length = num_ports) ∧
    (process 2 exState).1.input_ports = exState.input_ports ∧
    (process 2 exState).1.output_ports = exState.output_ports :=
  ⟨(ports_invariant allOkEnv 2 exState).1 rfl (fun _ _ => rfl) (fun _ _ => rfl),
   (ports_invariant allOkEnv 2 exState).2⟩
